import Mathlib

/-!
Verification of the playwright scraping service (apps/playwright-service-ts/api.ts).

The service is embedded shallowly: engine calls (navigation, selector waits,
header installation, closes) are represented by explicit outcome data, and each
handler of api.ts becomes a pure Lean function over that data.  Definitions
follow the source line by line; the only spec-modelled pieces are noted in
their doc comments.
-/

set_option maxRecDepth 8192

namespace PlaywrightService

/-- List-level check that the first list is an initial segment of the second. -/
def prefixMatch : List Char → List Char → Bool
  | [], _ => true
  | _ :: _, [] => false
  | a :: as, b :: bs => a == b && prefixMatch as bs

/-- List-level check that the pattern occurs contiguously somewhere in the text. -/
def substrMatch (pat : List Char) : List Char → Bool
  | [] => prefixMatch pat []
  | c :: cs => prefixMatch pat (c :: cs) || substrMatch pat cs

/-- String containment test mirroring JavaScript String.prototype.includes,
used by the ad filter (api.ts line 112) and the content-type test (line 168). -/
def strContains (s pat : String) : Bool := substrMatch pat.data s.data

/-- JavaScript truthiness of an optional string: absent or empty is falsy,
mirroring the checks on check_selector (api.ts line 156). -/
def strTruthy : Option String → Bool
  | none => false
  | some s => s != ""

/-- JavaScript x || dflt on an optional string: the default is used when the
value is absent or empty (api.ts line 262). -/
def jsOrElse (s : Option String) (dflt : String) : String :=
  match s with
  | some m => if m == "" then dflt else m
  | none => dflt

/-- Fixed advertising and tracking domain deny-list, api.ts lines 21-35. -/
def AD_SERVING_DOMAINS : List String :=
  ["doubleclick.net",
   "adservice.google.com",
   "googlesyndication.com",
   "googletagservices.com",
   "googletagmanager.com",
   "google-analytics.com",
   "adsystem.com",
   "adservice.com",
   "adnxs.com",
   "ads-twitter.com",
   "facebook.net",
   "fbcdn.net",
   "amazon-adsystem.com"]

/-- Extensions listed in the BLOCK_MEDIA route pattern, api.ts line 102. -/
def mediaExtensions : List String :=
  ["png", "jpg", "jpeg", "gif", "svg", "mp3", "mp4", "avi", "flac", "ogg", "wav", "webm"]

/-- List-level suffix test: the first list is a final segment of the second. -/
def suffixMatch (pat s : List Char) : Bool :=
  prefixMatch pat.reverse s.reverse

/-- Lower-casing of a string, character by character, used for the
case-insensitive header lookup of api.ts line 167. -/
def lowerStr (s : String) : String :=
  String.mk (s.data.map Char.toLower)

/-- Request URL matches the media route pattern of api.ts line 102: the URL
ends in a dot followed by one of the listed extensions. -/
def mediaGlobMatches (url : String) : Bool :=
  mediaExtensions.any (fun ext => suffixMatch ('.' :: ext.data) url.data)

inductive RouteAction
  | abort
  | cont
deriving DecidableEq, Repr

/-- Decision of the catch-all ad-blocking route handler, api.ts lines 108-117:
abort when the hostname contains any deny-list entry, otherwise continue. -/
def adRouteDecision (hostname : String) : RouteAction :=
  if AD_SERVING_DOMAINS.any (fun d => strContains hostname d) then .abort else .cont

/-- Modelled from the spec: the interception policy evaluates the media rule
first, then the ad rule, then continues (spec section 4.3).  The two rules
themselves are taken from api.ts lines 101-117; only their dispatch order is
decided by the engine library outside this repository and is therefore taken
from the spec. -/
def interceptionDecision (blockMedia : Bool) (url hostname : String) : RouteAction :=
  if blockMedia && mediaGlobMatches url then .abort
  else adRouteDecision hostname

/-- Navigation strategies used by the scrape handler, api.ts lines 284 and 289. -/
inductive WaitUntil
  | load
  | networkidle
deriving DecidableEq, Repr

/-- Response object returned by a successful navigation: target status,
header list and raw body. -/
structure Resp where
  status : Int
  headers : List (String × String)
  body : String
deriving DecidableEq, Repr

/-- Outcome of page.goto for one attempt: an exception, or completion with an
optional response object. -/
inductive GotoOutcome
  | err
  | ok (response : Option Resp)
deriving DecidableEq, Repr

/-- Behaviour of the engine for one navigation attempt: the goto outcome,
whether the selector wait finds a match within its timeout, and the rendered
document text that page.content() would produce. -/
structure AttemptBehavior where
  goto : GotoOutcome
  selectorFound : Bool
  rendered : String
deriving DecidableEq, Repr

/-- Errors scrapePage can raise: a navigation exception from page.goto, or the
explicit selector error thrown at api.ts line 160. -/
inductive ScrapeErr
  | navigationError
  | selectorNotFound
deriving DecidableEq, Repr

/-- Value returned by scrapePage, api.ts lines 173-177. -/
structure PageResult where
  content : String
  status : Option Int
  headers : Option (List (String × String))
deriving DecidableEq, Repr

/-- Lookup of the content-type header by case-insensitive key, api.ts line 167. -/
def findContentType (headers : List (String × String)) : Option (String × String) :=
  headers.find? (fun x => lowerStr x.1 == "content-type")

/-- Content-type values that trigger the raw-body path, api.ts line 168. -/
def ctIsRaw (v : String) : Bool :=
  strContains v "application/json" || strContains v "text/plain"

/-- Response whose content-type header selects the raw-body extraction. -/
def respRaw (r : Resp) : Bool :=
  match findContentType r.headers with
  | some ct => ctIsRaw ct.2
  | none => false

/-- Model of scrapePage, api.ts lines 148-178.  The goto outcome comes first;
the wait_after_load pause has no observable effect in the pure model; the
selector check runs after the pause and throws the selector error on failure;
extraction takes the raw body when a response exists whose content-type
matches, and the rendered document otherwise. -/
def scrapePage (b : AttemptBehavior) (checkSelector : Option String) :
    Except ScrapeErr PageResult :=
  match b.goto with
  | .err => .error .navigationError
  | .ok response =>
      if strTruthy checkSelector && !b.selectorFound then
        .error .selectorNotFound
      else
        match response with
        | none => .ok ⟨b.rendered, none, none⟩
        | some r =>
            let content :=
              match findContentType r.headers with
              | some ct => if ctIsRaw ct.2 then r.body else b.rendered
              | none => b.rendered
            .ok ⟨content, some r.status, some r.headers⟩

/-- Modelled from the spec: the helper get_error (helpers/get_error, not under
src) maps a non-200 page status to an advisory category string — client-error
range, server-error range, redirect-exhausted or unknown — always non-empty
(spec section 4.5). -/
def getError (status : Option Int) : String :=
  match status with
  | none => "unknown error"
  | some s =>
      if 300 ≤ s ∧ s < 400 then "redirect exhausted"
      else if 400 ≤ s ∧ s < 500 then "client error"
      else if 500 ≤ s ∧ s < 600 then "server error"
      else "unknown error"

/-- Outcome of the scrape handler after validation and initialization:
the service 200 body, the generic 500 of api.ts line 292, or an exception that
escapes the handler uncaught. -/
inductive HandlerOutcome
  | ok (content : String) (pageStatusCode : Option Int) (pageError : Option String)
  | fetchFailed
  | uncaught
deriving DecidableEq, Repr

/-- Result of one run of the scrape handler core: the outcome, whether the
acquired page was closed, and the navigation attempts made as pairs of wait
strategy and timeout. -/
structure HandlerResult where
  outcome : HandlerOutcome
  pageClosed : Bool
  navAttempts : List (WaitUntil × Nat)
deriving DecidableEq, Repr

/-- Response assembly after a completed fetch, api.ts lines 296-310: the page
error annotation is computed for any status other than 200 and spread into the
body only when the resulting string is truthy. -/
def assembleResponse (r : PageResult) : HandlerOutcome :=
  let pageError : Option String :=
    if r.status ≠ some 200 then some (getError r.status) else none
  let pe : Option String :=
    match pageError with
    | some s => if s == "" then none else some s
    | none => none
  .ok r.content r.status pe

/-- Engine behaviour for one scrape request: one attempt behaviour per wait
strategy, and whether page.setExtraHTTPHeaders throws. -/
structure ScrapeBehavior where
  loadAttempt : AttemptBehavior
  idleAttempt : AttemptBehavior
  setHeadersFails : Bool
deriving DecidableEq, Repr

/-- Model of the scrape handler from page acquisition onward, api.ts lines
273-311: headers are installed outside any try block, so a failure there
escapes with the page still open; otherwise strategy 1 runs with waitUntil
load, any error from it triggers strategy 2 with waitUntil networkidle and the
same timeout, and a second failure closes the page and answers 500; a
completed attempt closes the page and assembles the 200 response. -/
def scrapeHandlerCore (b : ScrapeBehavior) (headers : Option (List (String × String)))
    (checkSelector : Option String) (timeout : Nat) : HandlerResult :=
  if headers.isSome && b.setHeadersFails then
    ⟨.uncaught, false, []⟩
  else
    match scrapePage b.loadAttempt checkSelector with
    | .ok r => ⟨assembleResponse r, true, [(.load, timeout)]⟩
    | .error _ =>
        match scrapePage b.idleAttempt checkSelector with
        | .ok r => ⟨assembleResponse r, true, [(.load, timeout), (.networkidle, timeout)]⟩
        | .error _ => ⟨.fetchFailed, true, [(.load, timeout), (.networkidle, timeout)]⟩

/-- Global session state of api.ts lines 45-51, extended with two ghost
counters: launches counts chromium.launch invocations, active counts launches
currently in flight. -/
structure InitState where
  browserSet : Bool
  contextSet : Bool
  browserInitialized : Bool
  browserInitError : Option String
  initializationInProgress : Bool
  launches : Nat
  active : Nat
deriving DecidableEq, Repr

/-- Initial state at service start. -/
def init0 : InitState := ⟨false, false, false, none, false, 0, 0⟩

/-- Synchronous prefix of initializeBrowser, api.ts lines 53-65: when an
initialization is already in progress the call returns at once with no state
change; otherwise the guard flag is set, the recorded error is cleared, and
the engine launch begins. -/
def initStart (s : InitState) : InitState :=
  if s.initializationInProgress then s
  else { s with initializationInProgress := true, browserInitError := none,
                launches := s.launches + 1, active := s.active + 1 }

/-- Completion of an in-flight initializeBrowser, api.ts lines 99-127: success
installs browser and context and marks the session initialized; failure
records the error and clears the initialized flag; either way the finally
block clears the in-progress flag. -/
def initFinish (ok : Bool) (err : String) (s : InitState) : InitState :=
  if s.initializationInProgress then
    if ok then
      { s with browserSet := true, contextSet := true, browserInitialized := true,
               initializationInProgress := false, active := s.active - 1 }
    else
      { s with browserInitialized := false, browserInitError := some err,
               initializationInProgress := false, active := s.active - 1 }
  else s

/-- Events of the initialization state machine: a call of initializeBrowser
(its synchronous prefix) or the completion of the in-flight run. -/
inductive InitEvent
  | call
  | finish (ok : Bool) (err : String)
deriving DecidableEq, Repr

/-- One step of the initialization state machine. -/
def initStep (s : InitState) : InitEvent → InitState
  | .call => initStart s
  | .finish ok err => initFinish ok err s

/-- Run of the initialization state machine over an event trace. -/
def runInit : InitState → List InitEvent → InitState
  | s, [] => s
  | s, e :: es => runInit (initStep s e) es

/-- Awaited initializeBrowser call as performed by the scrape handler, api.ts
line 257: a call that finds one in flight returns immediately without
completing it; a fresh call runs to completion with the given launch outcome. -/
def initBrowserAwaited (ok : Bool) (err : String) (s : InitState) : InitState :=
  if s.initializationInProgress then s
  else initFinish ok err (initStart s)

/-- Bodies the readiness probe can answer with, api.ts lines 186-230. -/
inductive ReadinessResp
  | ready
  | notReadyError (msg : String)
  | notReadyInProgress
  | notReadyStarted
  | notReadyUnknown
deriving DecidableEq, Repr

/-- Result of one readiness probe: the response, the session state after the
probe, and how many initializeBrowser calls the probe spawned. -/
structure ProbeResult where
  resp : ReadinessResp
  state : InitState
  initCallsSpawned : Nat
deriving DecidableEq, Repr

/-- Model of the readiness probe, api.ts lines 186-230: initialized answers
ready; a recorded error answers 503 with that error and nothing else; an
in-flight initialization answers 503 in progress; otherwise the probe fires
initializeBrowser without awaiting it — only its synchronous prefix runs
before the 503 started response is produced. -/
def readinessProbe (s : InitState) : ProbeResult :=
  if s.browserInitialized then ⟨.ready, s, 0⟩
  else if s.browserInitError.isSome then
    ⟨.notReadyError (jsOrElse s.browserInitError ""), s, 0⟩
  else if s.initializationInProgress then ⟨.notReadyInProgress, s, 0⟩
  else if !s.initializationInProgress && !s.browserInitialized then
    ⟨.notReadyStarted, initStart s, 1⟩
  else ⟨.notReadyUnknown, s, 0⟩

/-- Result of the initialization stage of the scrape handler: the state after
it, the number of initializeBrowser calls made, and the 500 body when the
session still is not ready. -/
structure ScrapeInitResult where
  state : InitState
  initCalls : Nat
  error500 : Option String
deriving DecidableEq, Repr

/-- Model of the initialization stage of the scrape handler, api.ts lines
255-271: when browser, context and the initialized flag are all present the
stage is a no-op; otherwise exactly one awaited initializeBrowser call is
made, and if the session is still not initialized the handler answers 500
with the recorded reason or the fixed unknown-error text. -/
def scrapeInitStage (ok : Bool) (err : String) (s : InitState) : ScrapeInitResult :=
  if s.browserSet && s.contextSet && s.browserInitialized then ⟨s, 0, none⟩
  else
    let s1 := initBrowserAwaited ok err s
    if !s1.browserInitialized then
      ⟨s1, 1, some (jsOrElse s1.browserInitError "Unknown error")⟩
    else ⟨s1, 1, none⟩

/-- World in which shutdownBrowser runs: which handles are set and whether each
close call succeeds. -/
structure ShutdownWorld where
  contextSet : Bool
  browserSet : Bool
  contextCloseOk : Bool
  browserCloseOk : Bool
deriving DecidableEq, Repr

/-- Observable effects of one shutdownBrowser run: which closes were attempted
and whether the function raised. -/
structure ShutdownRun where
  contextClosed : Bool
  browserClosed : Bool
  threw : Bool
deriving DecidableEq, Repr

/-- Model of shutdownBrowser, api.ts lines 130-137: each close is attempted
only when its handle is set; the two awaits are sequential with no try block,
so an exception from the context close propagates before the browser close
runs. -/
def shutdownBrowser (w : ShutdownWorld) : ShutdownRun :=
  if w.contextSet then
    if !w.contextCloseOk then ⟨true, false, true⟩
    else if w.browserSet then
      if !w.browserCloseOk then ⟨true, true, true⟩ else ⟨true, true, false⟩
    else ⟨true, false, false⟩
  else if w.browserSet then
    if !w.browserCloseOk then ⟨false, true, true⟩ else ⟨false, true, false⟩
  else ⟨false, false, false⟩

/-- Scheme characters allowed after the first, per the WHATWG URL grammar. -/
def isSchemeChar (c : Char) : Bool := c.isAlphanum || c == '+' || c == '-' || c == '.'

/-- Valid URL scheme: nonempty, starts with a letter, rest scheme characters. -/
def validScheme (s : List Char) : Bool :=
  match s with
  | [] => false
  | c :: cs => c.isAlpha && cs.all isSchemeChar

/-- Special schemes of the WHATWG URL standard that require a host. -/
def specialSchemes : List String := ["http", "https", "ws", "wss", "ftp"]

/-- Host segment: characters up to the next path, query or fragment delimiter. -/
def hostPart (rest : List Char) : List Char :=
  rest.takeWhile (fun c => c != '/' && c != '?' && c != '#')

/-- Split a character list at the first colon, returning the parts before and
after it, or nothing when no colon occurs. -/
def splitAtColon : List Char → Option (List Char × List Char)
  | [] => none
  | c :: cs =>
      if c == ':' then some ([], cs)
      else
        match splitAtColon cs with
        | some (a, b) => some (c :: a, b)
        | none => none

/-- Modelled from the WHATWG URL parser invoked through new URL at api.ts line
141 (a platform builtin outside this repository): a string parses without a
base iff it begins with a valid scheme followed by a colon, and a special
scheme (http, https, ws, wss, ftp) additionally requires a nonempty host after
optional slashes; every other scheme, file and mailto and javascript included,
accepts an arbitrary remainder. -/
def urlParseOk (s : String) : Bool :=
  match splitAtColon s.data with
  | none => false
  | some (schemeChars, rest) =>
      validScheme schemeChars &&
        (if specialSchemes.contains (lowerStr (String.mk schemeChars)) then
          !(hostPart (rest.dropWhile (fun c => c == '/'))).isEmpty
        else true)

/-- Model of isValidUrl, api.ts lines 139-146: true exactly when the WHATWG
parse succeeds. -/
def isValidUrl (urlString : String) : Bool := urlParseOk urlString

/-- Outcome of the URL validation stage of the scrape handler. -/
inductive UrlCheck
  | missing
  | invalid
  | accepted
deriving DecidableEq, Repr

/-- Model of the validation stage of the scrape handler, api.ts lines 243-249:
a missing or empty url answers 400 URL is required; a url failing isValidUrl
answers 400 Invalid URL; anything else proceeds to the session and the
browser with no further restriction. -/
def scrapeUrlValidation (url : Option String) : UrlCheck :=
  match url with
  | none => .missing
  | some u =>
      if u == "" then .missing
      else if !isValidUrl u then .invalid
      else .accepted

/-- Invariant relating the ghost launch counter to the guard flag: a launch is
in flight exactly while the in-progress flag is set. -/
def activeInv (s : InitState) : Prop :=
  s.active = if s.initializationInProgress then 1 else 0

/-- Session state with one initialization in flight. -/
def inflightState : InitState := ⟨false, false, false, none, true, 1, 1⟩

/-- Session state after a failed launch: error recorded, nothing in flight. -/
def failedState : InitState := ⟨true, false, false, some "launch failed", false, 1, 0⟩

/-- Engine behaviour whose load attempt raises and whose networkidle attempt
completes with an html response. -/
def cbW : ScrapeBehavior :=
  ⟨⟨.err, true, ""⟩,
   ⟨.ok (some ⟨200, [("content-type", "text/html")], "<html></html>"⟩), true, "idle rendered"⟩,
   false⟩

/-- Engine behaviour whose load attempt misses the selector and whose
networkidle attempt finds it. -/
def selCexB : ScrapeBehavior :=
  ⟨⟨.ok (some ⟨200, [], ""⟩), false, "half"⟩,
   ⟨.ok (some ⟨200, [], ""⟩), true, "full"⟩,
   false⟩

/-- Engine behaviour in which both attempts miss the selector. -/
def selFailB : ScrapeBehavior :=
  ⟨⟨.ok (some ⟨200, [], ""⟩), false, "half"⟩,
   ⟨.ok (some ⟨200, [], ""⟩), false, "half"⟩,
   false⟩

/-- Engine behaviour in which installing the extra HTTP headers raises. -/
def headerFailB : ScrapeBehavior :=
  ⟨⟨.ok (some ⟨200, [], "ok"⟩), true, "page"⟩,
   ⟨.ok (some ⟨200, [], "ok"⟩), true, "page"⟩,
   true⟩

/-- Attempt behaviour of a target serving a text/plain body hello. -/
def helloAttempt : AttemptBehavior :=
  ⟨.ok (some ⟨200, [("Content-Type", "text/plain; charset=utf-8")], "hello"⟩), true,
    "<html><head></head><body>hello</body></html>"⟩

/-- Helper: one step preserves the launch-counter invariant. -/
theorem initStep_activeInv (s : InitState) (e : InitEvent) (h : activeInv s) :
    activeInv (initStep s e) := by
  unfold activeInv at h ⊢
  cases e with
  | call =>
      simp only [initStep, initStart]
      by_cases hp : s.initializationInProgress
      · simpa [hp] using h
      · simp [hp] at h
        simp [hp, h]
  | finish ok err =>
      simp only [initStep, initFinish]
      by_cases hp : s.initializationInProgress
      · simp [hp] at h
        cases ok <;> simp [hp, h]
      · simpa [hp] using h

/-- Helper: every trace preserves the launch-counter invariant. -/
theorem runInit_activeInv (es : List InitEvent) :
    ∀ s : InitState, activeInv s → activeInv (runInit s es) := by
  induction es with
  | nil => intro s h; exact h
  | cons e es ih =>
      intro s h
      exact ih (initStep s e) (initStep_activeInv s e h)

/-- Helper: the advisory category is never the empty string. -/
theorem getError_ne_empty (st : Option Int) : getError st ≠ "" := by
  unfold getError
  cases st with
  | none => decide
  | some s =>
      dsimp only
      by_cases h1 : 300 ≤ s ∧ s < 400
      · rw [if_pos h1]; decide
      · rw [if_neg h1]
        by_cases h2 : 400 ≤ s ∧ s < 500
        · rw [if_pos h2]; decide
        · rw [if_neg h2]
          by_cases h3 : 500 ≤ s ∧ s < 600
          · rw [if_pos h3]; decide
          · rw [if_neg h3]; decide

/-- C3: initializeBrowser is single-flight guarded: a call made while one is
in progress is an immediate no-op, any number of such calls leave the state
and the launch count unchanged, along every event trace from the initial
state at most one engine launch is in flight, and one call followed by any
number of concurrent calls performs exactly one launch. -/
theorem init_single_flight :
    (∀ s : InitState, s.initializationInProgress = true → initStep s .call = s) ∧
    (∀ (s : InitState) (n : Nat), s.initializationInProgress = true →
      runInit s (List.replicate n .call) = s) ∧
    (∀ es : List InitEvent, (runInit init0 es).active ≤ 1) ∧
    (∀ n : Nat, (runInit init0 (.call :: List.replicate n .call)).launches = 1) := by
  have hstep : ∀ s : InitState, s.initializationInProgress = true → initStep s .call = s := by
    intro s h
    simp [initStep, initStart, h]
  have hrep : ∀ (s : InitState) (n : Nat), s.initializationInProgress = true →
      runInit s (List.replicate n .call) = s := by
    intro s n h
    induction n with
    | zero => rfl
    | succ k ih =>
        rw [List.replicate_succ]
        show runInit (initStep s .call) (List.replicate k .call) = s
        rw [hstep s h]
        exact ih
  refine ⟨hstep, hrep, ?_, ?_⟩
  · intro es
    have h := runInit_activeInv es init0 rfl
    unfold activeInv at h
    rw [h]
    split <;> omega
  · intro n
    show (runInit (initStep init0 .call) (List.replicate n .call)).launches = 1
    rw [show initStep init0 .call = inflightState from rfl]
    rw [hrep inflightState n rfl]
    rfl

/-- C3 witness: one call followed by three concurrent calls performs exactly
one launch, and five calls against an in-flight initialization change
nothing. -/
theorem init_single_flight_witness :
    (runInit init0 (.call :: List.replicate 3 .call)).launches = 1 ∧
    runInit inflightState (List.replicate 5 .call) = inflightState :=
  ⟨init_single_flight.2.2.2 3, init_single_flight.2.1 inflightState 5 rfl⟩

/-- C4: evaluation of the handler at the failing input: when headers are
provided and setExtraHTTPHeaders raises, the error escapes the handler with
the acquired page never closed — the close-on-every-exit-path property the
code intends is violated on this path. -/
theorem header_failure_page_leak :
    scrapeHandlerCore headerFailB (some [("X-Test", "1")]) none 15000 =
      ⟨.uncaught, false, []⟩ := rfl

/-- C9 counterexample: with both handles set and a context close that raises,
shutdownBrowser propagates the error before the engine close runs — the
context-close failure does prevent the process-close step. -/
theorem shutdown_context_failure_blocks_cex :
    shutdownBrowser ⟨true, true, false, true⟩ = ⟨true, false, true⟩ := rfl

/-- C9 (amended): shutdownBrowser closes the context and then the engine
process in sequence, each attempted only when its handle is set; when the
context close does not fail the engine close runs; a failing context close
raises and skips the engine close; and when both closes succeed the call
completes without error, so repeated calls succeed. -/
theorem shutdown_sequential_close (w : ShutdownWorld) :
    (w.contextSet = true → (shutdownBrowser w).contextClosed = true) ∧
    ((w.contextSet = false ∨ w.contextCloseOk = true) →
      (shutdownBrowser w).browserClosed = w.browserSet) ∧
    (w.contextSet = true → w.contextCloseOk = false →
      (shutdownBrowser w).browserClosed = false ∧ (shutdownBrowser w).threw = true) ∧
    (w.contextCloseOk = true → w.browserCloseOk = true →
      (shutdownBrowser w).threw = false) := by
  obtain ⟨cs, bs, cok, bok⟩ := w
  cases cs <;> cases bs <;> cases cok <;> cases bok <;> decide

/-- C9 witness: with both handles set and both closes succeeding, shutdown
closes the context and the engine and completes without error. -/
theorem shutdown_sequential_close_witness :
    (shutdownBrowser ⟨true, true, true, true⟩).contextClosed = true ∧
    (shutdownBrowser ⟨true, true, true, true⟩).browserClosed = true ∧
    (shutdownBrowser ⟨true, true, true, true⟩).threw = false := by
  have h := shutdown_sequential_close ⟨true, true, true, true⟩
  exact ⟨h.1 rfl, h.2.1 (Or.inr rfl), h.2.2.2 rfl rfl⟩

/-- C1: for every scrape, navigation is first attempted with wait condition
load bounded by the request timeout; any error from the first attempt
triggers exactly one fallback with wait condition networkidle and the same
timeout, whose content is returned when it succeeds; and when the fallback
also fails the whole operation fails with the generic fetch failure and no
further attempt is made. -/
theorem scrape_navigation_fallback (b : ScrapeBehavior)
    (hdrs : Option (List (String × String))) (sel : Option String) (t : Nat)
    (hh : (hdrs.isSome && b.setHeadersFails) = false) :
    (∀ r, scrapePage b.loadAttempt sel = .ok r →
      scrapeHandlerCore b hdrs sel t = ⟨assembleResponse r, true, [(.load, t)]⟩) ∧
    (∀ e r, scrapePage b.loadAttempt sel = .error e →
      scrapePage b.idleAttempt sel = .ok r →
      scrapeHandlerCore b hdrs sel t =
        ⟨assembleResponse r, true, [(.load, t), (.networkidle, t)]⟩) ∧
    (∀ e e2, scrapePage b.loadAttempt sel = .error e →
      scrapePage b.idleAttempt sel = .error e2 →
      scrapeHandlerCore b hdrs sel t =
        ⟨.fetchFailed, true, [(.load, t), (.networkidle, t)]⟩) := by
  refine ⟨?_, ?_, ?_⟩
  · intro r h
    simp [scrapeHandlerCore, hh, h]
  · intro e r h1 h2
    simp [scrapeHandlerCore, hh, h1, h2]
  · intro e e2 h1 h2
    simp [scrapeHandlerCore, hh, h1, h2]

/-- C1 witness: concrete run in which the load attempt raises and the
networkidle attempt completes; the handler returns the fallback content under
the same timeout. -/
theorem scrape_navigation_fallback_witness :
    scrapeHandlerCore cbW none none 15000 =
      ⟨assembleResponse ⟨"idle rendered", some 200, some [("content-type", "text/html")]⟩,
        true, [(.load, 15000), (.networkidle, 15000)]⟩ :=
  (scrape_navigation_fallback cbW none none 15000 rfl).2.1 .navigationError
    ⟨"idle rendered", some 200, some [("content-type", "text/html")]⟩ (by rfl) (by rfl)

/-- C2 counterexample: with the selector missing on the load attempt,
scrapePage raises the selector error, yet the handler runs a second
networkidle navigation and the whole operation succeeds with its content —
the selector failure is neither fatal for the request nor exempt from the
fallback. -/
theorem selector_failure_triggers_fallback_cex :
    scrapePage selCexB.loadAttempt (some "#missing") = .error .selectorNotFound ∧
    scrapeHandlerCore selCexB none (some "#missing") 15000 =
      ⟨.ok "full" (some 200) none, true, [(.load, 15000), (.networkidle, 15000)]⟩ :=
  ⟨rfl, rfl⟩

/-- C2 (amended): when navigation succeeds but the selector does not appear
within its timeout, the attempt fails with the selector error, evaluated
after the post-load pause; at the request level that error is caught by the
same handler as a navigation error, so it triggers the single networkidle
fallback, and the operation fails — with the generic fetch failure — only
when the second attempt also fails, the page being closed either way. -/
theorem selector_failure_fallback (b : ScrapeBehavior)
    (hdrs : Option (List (String × String))) (sel : String) (t : Nat) (resp : Option Resp)
    (hh : (hdrs.isSome && b.setHeadersFails) = false)
    (hsel : sel ≠ "")
    (hg : b.loadAttempt.goto = .ok resp)
    (hf : b.loadAttempt.selectorFound = false) :
    scrapePage b.loadAttempt (some sel) = .error .selectorNotFound ∧
    (scrapeHandlerCore b hdrs (some sel) t).navAttempts = [(.load, t), (.networkidle, t)] ∧
    (scrapeHandlerCore b hdrs (some sel) t).pageClosed = true ∧
    (∀ e, scrapePage b.idleAttempt (some sel) = .error e →
      (scrapeHandlerCore b hdrs (some sel) t).outcome = .fetchFailed) ∧
    (∀ r, scrapePage b.idleAttempt (some sel) = .ok r →
      (scrapeHandlerCore b hdrs (some sel) t).outcome = assembleResponse r) := by
  have htr : strTruthy (some sel) = true := by
    simp [strTruthy, bne_iff_ne]
    exact hsel
  have hs : scrapePage b.loadAttempt (some sel) = .error .selectorNotFound := by
    unfold scrapePage
    rw [hg]
    simp [htr, hf]
  refine ⟨hs, ?_, ?_, ?_, ?_⟩
  · cases h2 : scrapePage b.idleAttempt (some sel) <;>
      simp [scrapeHandlerCore, hh, hs, h2]
  · cases h2 : scrapePage b.idleAttempt (some sel) <;>
      simp [scrapeHandlerCore, hh, hs, h2]
  · intro e he
    simp [scrapeHandlerCore, hh, hs, he]
  · intro r hr
    simp [scrapeHandlerCore, hh, hs, hr]

/-- C2 witness: concrete run in which both attempts miss the selector; the
handler makes both navigation attempts, closes the page and fails with the
generic fetch failure. -/
theorem selector_failure_fallback_witness :
    scrapePage selFailB.loadAttempt (some "#missing") = .error .selectorNotFound ∧
    (scrapeHandlerCore selFailB none (some "#missing") 15000).outcome = .fetchFailed ∧
    (scrapeHandlerCore selFailB none (some "#missing") 15000).pageClosed = true := by
  have h := selector_failure_fallback selFailB none "#missing" 15000 (some ⟨200, [], ""⟩)
    rfl (by decide) rfl rfl
  exact ⟨h.1, h.2.2.2.1 .selectorNotFound rfl, h.2.2.1⟩

/-- C6: extraction is content-type aware: when a response exists and its
content-type header contains application/json or text/plain, the returned
content is the raw response body; otherwise it is the rendered document; a
navigation that produced no response at all also yields the rendered document
with no status. -/
theorem content_type_extraction (b : AttemptBehavior) (sel : Option String) (r : Resp)
    (hsel : (strTruthy sel && !b.selectorFound) = false) :
    (b.goto = .ok (some r) → respRaw r = true →
      scrapePage b sel = .ok ⟨r.body, some r.status, some r.headers⟩) ∧
    (b.goto = .ok (some r) → respRaw r = false →
      scrapePage b sel = .ok ⟨b.rendered, some r.status, some r.headers⟩) ∧
    (b.goto = .ok none → scrapePage b sel = .ok ⟨b.rendered, none, none⟩) := by
  refine ⟨?_, ?_, ?_⟩
  · intro hg hr
    unfold respRaw at hr
    unfold scrapePage
    rw [hg]
    cases hct : findContentType r.headers with
    | none =>
        rw [hct] at hr
        exact absurd hr (by decide)
    | some ct =>
        rw [hct] at hr
        dsimp only at hr
        simp [hsel, hct, hr]
  · intro hg hr
    unfold respRaw at hr
    unfold scrapePage
    rw [hg]
    cases hct : findContentType r.headers with
    | none => simp [hsel, hct]
    | some ct =>
        rw [hct] at hr
        dsimp only at hr
        simp [hsel, hct, hr]
  · intro hg
    unfold scrapePage
    rw [hg]
    simp [hsel]

/-- C6 witness: a target serving a text/plain body hello yields content
exactly hello, not the HTML-wrapped rendering. -/
theorem content_type_extraction_witness :
    scrapePage helloAttempt none =
      .ok ⟨"hello", some 200, some [("Content-Type", "text/plain; charset=utf-8")]⟩ :=
  (content_type_extraction helloAttempt none
      ⟨200, [("Content-Type", "text/plain; charset=utf-8")], "hello"⟩ rfl).1 (by rfl) (by rfl)

/-- C5: per sub-resource decision of the interception policy: with the media
rule evaluated first and the deny-list rule second, a request is aborted
exactly when media blocking is on and the URL carries a listed media
extension, or the hostname contains a deny-list entry as a substring; every
other request continues; in particular a hostname containing doubleclick.net
is aborted and an unrelated hostname passes. -/
theorem interception_policy_decision :
    (∀ (bm : Bool) (url host : String),
      interceptionDecision bm url host = .abort ↔
        (bm = true ∧ mediaGlobMatches url = true) ∨
          (∃ d ∈ AD_SERVING_DOMAINS, strContains host d = true)) ∧
    interceptionDecision false "https://x.example/app.js" "stats.doubleclick.net" = .abort ∧
    interceptionDecision false "https://x.example/app.js" "example.com" = .cont ∧
    interceptionDecision true "https://cdn.example/pic.png" "cdn.example" = .abort ∧
    interceptionDecision false "https://cdn.example/pic.png" "cdn.example" = .cont := by
  refine ⟨?_, by rfl, by rfl, by rfl, by rfl⟩
  intro bm url host
  unfold interceptionDecision adRouteDecision
  by_cases h1 : (bm && mediaGlobMatches url) = true
  · rw [if_pos h1]
    rw [Bool.and_eq_true] at h1
    exact ⟨fun _ => Or.inl h1, fun _ => rfl⟩
  · rw [if_neg h1]
    rw [Bool.and_eq_true] at h1
    by_cases h2 : AD_SERVING_DOMAINS.any (fun d => strContains host d) = true
    · rw [if_pos h2]
      rw [List.any_eq_true] at h2
      exact ⟨fun _ => Or.inr h2, fun _ => rfl⟩
    · rw [if_neg h2]
      rw [List.any_eq_true] at h2
      constructor
      · intro hc
        exact absurd hc (by decide)
      · intro hr
        rcases hr with hm | he
        · exact absurd hm h1
        · exact absurd he h2

/-- C7: the service answers its own success for any completed fetch: a
completed attempt always assembles the 200 body, whose page error annotation
is a non-empty advisory category exactly when the target status is not 200;
the generic 500 of the handler arises only when both navigation strategies
raised; and a 404 target yields the service 200 body with page status 404 and
the client-error annotation. -/
theorem service_success_regardless_of_status :
    (∀ r : PageResult, r.status = some 200 →
      assembleResponse r = .ok r.content r.status none) ∧
    (∀ r : PageResult, r.status ≠ some 200 →
      ∃ msg, msg ≠ "" ∧ assembleResponse r = .ok r.content r.status (some msg)) ∧
    (∀ (b : ScrapeBehavior) (hdrs : Option (List (String × String)))
        (sel : Option String) (t : Nat),
      (scrapeHandlerCore b hdrs sel t).outcome = .fetchFailed →
      ∃ e e2, scrapePage b.loadAttempt sel = .error e ∧
        scrapePage b.idleAttempt sel = .error e2) ∧
    assembleResponse ⟨"not found page", some 404, some []⟩ =
      .ok "not found page" (some 404) (some "client error") := by
  refine ⟨?_, ?_, ?_, by rfl⟩
  · intro r h
    simp [assembleResponse, h]
  · intro r h
    refine ⟨getError r.status, getError_ne_empty r.status, ?_⟩
    unfold assembleResponse
    rw [if_pos h]
    have hne : (getError r.status == "") = false := by
      rw [beq_eq_false_iff_ne]
      exact getError_ne_empty r.status
    simp [hne]
  · intro b hdrs sel t h
    unfold scrapeHandlerCore at h
    by_cases hh : (hdrs.isSome && b.setHeadersFails) = true
    · rw [if_pos hh] at h
      exact absurd h (by decide)
    · rw [if_neg hh] at h
      cases h1 : scrapePage b.loadAttempt sel with
      | ok r =>
          rw [h1] at h
          simp [assembleResponse] at h
      | error e =>
          rw [h1] at h
          cases h2 : scrapePage b.idleAttempt sel with
          | ok r =>
              rw [h2] at h
              simp [assembleResponse] at h
          | error e2 =>
              exact ⟨e, e2, rfl, rfl⟩

/-- C7 witness: a 404 target yields the service 200 body with page status 404
and a non-empty page error annotation. -/
theorem service_success_regardless_of_status_witness :
    ∃ msg, msg ≠ "" ∧
      assembleResponse ⟨"not found page", some 404, some []⟩ =
        .ok "not found page" (some 404) (some msg) :=
  service_success_regardless_of_status.2.1 ⟨"not found page", some 404, some []⟩ (by decide)

/-- C8 counterexample: in the failed state, with a recorded error and nothing
in flight, the readiness probe answers 503 with the recorded reason and
spawns zero re-initialization attempts — a not-ready probe does not always
trigger one. -/
theorem failed_probe_no_reinit_cex :
    readinessProbe failedState =
      ⟨.notReadyError "launch failed", failedState, 0⟩ := rfl

/-- C8 (amended): a scrape request in any not-ready state makes exactly one
call of the initialization routine and answers 500 with the recorded reason,
or the fixed unknown-error text, when the session still is not initialized;
the readiness probe spawns an asynchronous initialization — answering without
awaiting it — only in the uninitialized state with no recorded error and none
in flight; in the failed state it answers 503 with the recorded reason and
spawns nothing. -/
theorem reinit_on_not_ready :
    (∀ (s : InitState) (ok : Bool) (err : String),
      (s.browserSet && s.contextSet && s.browserInitialized) = true →
      scrapeInitStage ok err s = ⟨s, 0, none⟩) ∧
    (∀ (s : InitState) (ok : Bool) (err : String),
      (s.browserSet && s.contextSet && s.browserInitialized) = false →
      (scrapeInitStage ok err s).initCalls = 1 ∧
      ((scrapeInitStage ok err s).state.browserInitialized = false →
        (scrapeInitStage ok err s).error500 =
          some (jsOrElse (scrapeInitStage ok err s).state.browserInitError "Unknown error")) ∧
      ((scrapeInitStage ok err s).state.browserInitialized = true →
        (scrapeInitStage ok err s).error500 = none)) ∧
    (∀ s : InitState, s.browserInitialized = false → s.browserInitError = none →
      s.initializationInProgress = false →
      readinessProbe s = ⟨.notReadyStarted, initStart s, 1⟩) ∧
    (∀ (s : InitState) (msg : String), s.browserInitialized = false →
      s.browserInitError = some msg → msg ≠ "" →
      readinessProbe s = ⟨.notReadyError msg, s, 0⟩) := by
  refine ⟨?_, ?_, ?_, ?_⟩
  · intro s ok err h
    simp [scrapeInitStage, h]
  · intro s ok err h
    unfold scrapeInitStage
    rw [if_neg (by simp [h])]
    cases hb : (initBrowserAwaited ok err s).browserInitialized with
    | false => simp [hb]
    | true => simp [hb]
  · intro s h1 h2 h3
    simp [readinessProbe, h1, h2, h3]
  · intro s msg h1 h2 hne
    simp [readinessProbe, h1, h2, jsOrElse, hne]

/-- C8 witness: a scrape request against the failed session makes one
initialization call and answers 500 with the recorded reason when the
relaunch fails again; the readiness probe on the fresh state spawns exactly
one asynchronous initialization. -/
theorem reinit_on_not_ready_witness :
    (scrapeInitStage false "relaunch failed" failedState).initCalls = 1 ∧
    (scrapeInitStage false "relaunch failed" failedState).error500 =
      some (jsOrElse
        (scrapeInitStage false "relaunch failed" failedState).state.browserInitError
        "Unknown error") ∧
    readinessProbe init0 = ⟨.notReadyStarted, initStart init0, 1⟩ := by
  have h := reinit_on_not_ready.2.1 failedState false "relaunch failed" rfl
  exact ⟨h.1, h.2.1 rfl, reinit_on_not_ready.2.2.1 init0 rfl rfl rfl⟩

/-- C10: URL validation accepts exactly the strings the WHATWG parse accepts,
with no scheme restriction: the scrape validation stage passes precisely when
the url field is present, non-empty and parses, and non-http schemes such as
mailto, javascript and file are accepted while scheme-less strings are
rejected. -/
theorem url_validation_whatwg :
    (∀ u : Option String,
      scrapeUrlValidation u = .accepted ↔
        ∃ s, u = some s ∧ s ≠ "" ∧ urlParseOk s = true) ∧
    isValidUrl "mailto:user@example.com" = true ∧
    isValidUrl "javascript:alert(1)" = true ∧
    isValidUrl "file:///etc/hosts" = true ∧
    isValidUrl "https://example.com/path" = true ∧
    isValidUrl "http:example.com" = true ∧
    isValidUrl "example.com/path" = false ∧
    isValidUrl "" = false ∧
    isValidUrl "http://" = false := by
  refine ⟨?_, by rfl, by rfl, by rfl, by rfl, by rfl, by rfl, by rfl, by rfl⟩
  intro u
  cases u with
  | none => simp [scrapeUrlValidation]
  | some s =>
      by_cases hs : s = ""
      · subst hs
        simp [scrapeUrlValidation]
      · by_cases hp : urlParseOk s = true
        · simp [scrapeUrlValidation, isValidUrl, hs, hp]
        · simp [scrapeUrlValidation, isValidUrl, hs, hp]

end PlaywrightService
